import Mathlib

set_option maxRecDepth 16384

/-
Verification of the sentiment-analysis backend
(src/sentimentAnalyser/backend/sentimentServer.py) against its
natural-language specification.

The server is shallowly embedded: pure data flow is translated to Lean
functions; the outside world (newspaper3k, requests, BeautifulSoup, the
Java subprocess, MongoDB, bcrypt, the clock) is passed in explicitly as
environment records, mirroring exactly how the Python code consumes it.
-/

/-- JSON values, as produced by Python json.loads on the analyzer stdout.
Numbers are modelled as rationals (JSON numerals are decimal). Objects are
association lists; json.loads never yields duplicate keys, later keys win. -/
inductive Json where
  | null
  | bool (b : Bool)
  | num (q : ℚ)
  | str (s : String)
  | arr (xs : List Json)
  | obj (kvs : List (String × Json))

/-- Value of a list of decimal digit characters. -/
def digitsVal (cs : List Char) : Nat :=
  cs.foldl (fun a c => a * 10 + (c.toNat - 48)) 0

/-- All-digit check plus value; empty string gives some 0 (callers handle emptiness). -/
def decDigits (s : String) : Option Nat :=
  if s.data.all Char.isDigit then some (digitsVal s.data) else none

/-- Model of Python float(s) on a string: optional surrounding whitespace,
optional sign, digits with optional fractional part. (The exponent,
inf and nan forms accepted by Python are not modelled; no claim
exercises them.) -/
def parseFloatString (s : String) : Option ℚ :=
  let t := s.trim
  let sign : ℚ := if t.startsWith "-" then -1 else 1
  let u := if t.startsWith "-" || t.startsWith "+" then t.drop 1 else t
  match u.splitOn "." with
  | [w] =>
      if w = "" then none
      else (decDigits w).map (fun n => sign * (n : ℚ))
  | [w, f] =>
      if w = "" && f = "" then none
      else
        match decDigits w, decDigits f with
        | some wn, some fn => some (sign * ((wn : ℚ) + (fn : ℚ) / ((10 : ℚ) ^ f.length)))
        | _, _ => none
  | _ => none

/-- Model of Python float(v) on a JSON value: numbers and booleans convert,
numeric strings parse, everything else (null, arrays, objects) raises
TypeError, modelled as none. -/
def pyFloat : Json → Option ℚ
  | .null => none
  | .bool b => some (if b then 1 else 0)
  | .num q => some q
  | .str s => parseFloatString s
  | .arr _ => none
  | .obj _ => none

/-- Dictionary lookup on a JSON object body: d.get(k) / k in d. -/
def lookup (kvs : List (String × Json)) (k : String) : Option Json :=
  (kvs.find? (fun p => p.1 == k)).map (fun p => p.2)

/-- The four fields of the normalized analyzer result read downstream by the
analyze handler (lines 236-239). The Python code returns the whole parsed
dict; any extra keys pass through untouched and no claim mentions them,
so only these four are carried. message and explanation keep whatever
JSON value the analyzer produced, as the code does not coerce them. -/
structure AnalysisResult where
  left : ℚ
  right : ℚ
  message : Json
  explanation : Json

/-- Normalization of the parsed analyzer output (sentimentServer.py lines
306-336): missing left/right default to 50.0, both are passed through
float() (a TypeError/ValueError there propagates, modelled as error);
missing message defaults to "Analysis complete"; missing explanation
defaults to the message value, which at that point always exists, so
the "No explanation provided" branch of the code is dead. Non-object
JSON raises a TypeError during the membership test or item assignment. -/
def normalizeResult : Json → Except String AnalysisResult
  | .obj kvs =>
      let left0 := (lookup kvs "left").getD (.num 50)
      let right0 := (lookup kvs "right").getD (.num 50)
      match pyFloat left0, pyFloat right0 with
      | some l, some r =>
          let message := (lookup kvs "message").getD (.str "Analysis complete")
          let explanation := (lookup kvs "explanation").getD message
          .ok ⟨l, r, message, explanation⟩
      | _, _ => .error "float() argument must be a string or a real number"
  | _ => .error "analyzer output is not a JSON object"

/-- Outcome of subprocess.run on the Java analyzer. stdout is recorded as
the result of json.loads on the captured text: none models a
JSONDecodeError on whatever the program printed. -/
structure SubprocessResult where
  returncode : Int
  stderr : String
  stdout : Option Json

/-- Host environment consumed by run_java_analyzer: whether the JAR exists,
the JAVA_PATH variable and whether the path it names exists, and the
behaviour of the external process (command line and stdin to outcome). -/
structure AnalyzerEnv where
  jarExists : Bool
  javaPathEnv : Option String
  javaPathEnvExists : Bool
  run : List String → String → SubprocessResult

/-- Relative JAR location (lines 19-20); the BASE_DIR prefix is elided. -/
def JAR_PATH : String :=
  "java-analysers/target/sentiment-analyzer-1.0-SNAPSHOT-jar-with-dependencies.jar"

/-- The analyzer-kind to Java-class map (lines 268-272). -/
def analyzer_classes : List (String × String) :=
  [("llm", "com.sentiment.BertPoliticalAnalyser"),
   ("transformer", "com.sentiment.TransformerAnalyzer"),
   ("lexicon", "com.sentiment.LexiconAnalyzer")]

/-- Class looked up for a kind; none when the kind is unknown. -/
def lookupAnalyzerKind (kind : String) : Option String :=
  (analyzer_classes.find? (fun p => p.1 == kind)).map (fun p => p.2)

/-- Choice of java executable (lines 260-265): JAVA_PATH if set, falling
back to plain "java" when the configured path does not exist. -/
def javaExecutable (env : AnalyzerEnv) : String :=
  let j := env.javaPathEnv.getD "java"
  if !env.javaPathEnvExists && j != "java" then "java" else j

/-- Command line built for the subprocess (lines 278-282): the model
argument is appended only for the transformer kind and only when model
is truthy (not None and not empty). -/
def buildCmd (env : AnalyzerEnv) (kind cls : String) (model : Option String) : List String :=
  [javaExecutable env, "-cp", JAR_PATH, cls] ++
    (if kind == "transformer" then
       match model with
       | some m => if m == "" then [] else ["--model", m]
       | none => []
     else [])

/-- run_java_analyzer (lines 253-344). Returns the normalized result or the
message of the exception that escapes, paired with whether a subprocess
was launched. The JAR check and the unknown-kind ValueError happen
before the inner try block, so those messages are not wrapped; failures
inside the try block are re-raised as "Error running analyzer: ...". -/
def run_java_analyzer (env : AnalyzerEnv) (analyzer_type : String) (text : String)
    (model : Option String) : Except String AnalysisResult × Bool :=
  if env.jarExists = false then
    (.error ("JAR file not found: " ++ JAR_PATH ++
      ". Make sure to build the project with Maven first."), false)
  else
    match lookupAnalyzerKind analyzer_type with
    | none => (.error ("Unknown analyzer type: " ++ analyzer_type), false)
    | some cls =>
        let result := env.run (buildCmd env analyzer_type cls model) text
        if result.returncode != 0 then
          (.error ("Error running analyzer: Java program error (" ++
            toString result.returncode ++ "): " ++ result.stderr), true)
        else
          match result.stdout with
          | none => (.error "Error running analyzer: Analyzer returned invalid JSON", true)
          | some j =>
              match normalizeResult j with
              | .ok r => (.ok r, true)
              | .error e => (.error ("Error running analyzer: " ++ e), true)

/-- Python str.lower, modelled on code points. -/
def pyLower (s : String) : String := ⟨s.data.map Char.toLower⟩

/-- Python str.endswith, modelled on code points. -/
def pyEndsWith (s suf : String) : Bool := suf.data.isSuffixOf s.data

/-- The download extensions rejected up front (line 87). -/
def download_extensions : List String :=
  [".pdf", ".zip", ".exe", ".doc", ".docx", ".xls", ".xlsx", ".ppt", ".pptx"]

/-- Fixed response string for download links (line 89). -/
def downloadLinkMsg : String := "This appears to be a download link, not an article."

/-- Fixed response string for a 404 on the fallback fetch (line 152). -/
def notFoundMsg : String :=
  "The article could not be found (404 error). The URL might be incorrect or the content may have been removed."

/-- Fixed response string for a 403 on the fallback fetch (line 154). -/
def forbiddenMsg : String :=
  "Access to this article is forbidden (403 error). The website may be blocking automated access."

/-- Fixed response string when every strategy fails (line 162). -/
def extractionFailedMsg : String :=
  "Could not extract text from this URL. The article might be behind a paywall, or the website may block automated access."

/-- Outcome of the fallback requests/BeautifulSoup stage (lines 107-159),
seen from the network and the HTML library, both external collaborators:
cleanedText t is the text after tag stripping, selector search and
whitespace cleanup; notHtml means the response had a non-HTML content
type; httpError is a raise_for_status HTTPError with its status code;
exn is any other exception inside the stage. -/
inductive FallbackResult where
  | cleanedText (t : String)
  | notHtml
  | httpError (status : Nat)
  | exn

/-- Environment of one extraction: what newspaper3k yields for the URL
(article.text, or none when download or parse raises) and what the
fallback stage yields. -/
structure ExtractEnv where
  primary : Option String
  fallback : FallbackResult

/-- The fallback tail of extract_text_from_url (lines 107-162): the cleaned
text is returned when longer than 100 characters; an HTTPError maps 404
and 403 to their fixed messages; every other path falls through to the
generic failure message. A network request has been made in all cases. -/
def fallbackStage (env : ExtractEnv) : String × Bool :=
  match env.fallback with
  | .cleanedText t => if 100 < t.length then (t, true) else (extractionFailedMsg, true)
  | .notHtml => (extractionFailedMsg, true)
  | .httpError s =>
      if s = 404 then (notFoundMsg, true)
      else if s = 403 then (forbiddenMsg, true)
      else (extractionFailedMsg, true)
  | .exn => (extractionFailedMsg, true)

/-- extract_text_from_url (lines 85-162), instrumented with a Boolean that
records whether any network activity happened. Download-extension URLs
are rejected before any request. The newspaper3k text is returned when
truthy and longer than 100 characters (the length test subsumes
truthiness); otherwise the fallback stage decides. No code path
truncates the returned text. -/
def extract_text_from_url (url : String) (env : ExtractEnv) : String × Bool :=
  if download_extensions.any (fun ext => pyEndsWith (pyLower url) ext) then
    (downloadLinkMsg, false)
  else
    match env.primary with
    | some t => if 100 < t.length then (t, true) else fallbackStage env
    | none => fallbackStage env

/-- The JSON response bodies the handlers build. -/
inductive RespBody where
  | errorBody (msg : String)
  | msgBody (msg : String)
  | authBody (authenticated : Bool) (user : Option String)
  | analyzeOk (results : AnalysisResult) (console_message : String)

/-- An HTTP response: Flask jsonify defaults the status to 200 unless a
handler returns an explicit status tuple. -/
structure Response where
  status : Nat
  body : RespBody

/-- Body of a POST /analyze request: request.json fields read with .get,
hence all optional (lines 218-221). -/
structure AnalyzeRequest where
  url : Option String
  analyzer_type : Option String
  model : Option String

/-- One history document as built by analyze (lines 231-241). The date is
an abstract timestamp. -/
structure HistoryRecord where
  user : String
  url : String
  analyzer_type : String
  model : Option String
  left : ℚ
  right : ℚ
  message : Json
  explanation : Json
  date : Nat

/-- Environment of one analyze request: extraction environment, analyzer
environment and the clock value datetime.now() would return. -/
structure AnalyzeEnv where
  extractEnv : ExtractEnv
  analyzerEnv : AnalyzerEnv
  now : Nat

/-- Message of the AttributeError raised inside extract_text_from_url when
the url is None: url.lower() on line 88 fails before any other work. -/
def noneUrlError : String := "AttributeError: NoneType object has no attribute lower"

/-- The analyze handler body (lines 215-251), after login_required has
admitted the caller as user. There is no validation that url is
present: data.get returns None, extract_text_from_url raises
AttributeError on None.lower(), and the except branch converts any
exception from the try block into a jsonify error body, which Flask
serves with the default status 200. On success one history record is
appended and a 200 results body is returned. The persistence insert is
modelled with document-store append semantics. -/
def analyze (env : AnalyzeEnv) (store : List HistoryRecord) (user : String)
    (data : AnalyzeRequest) : Response × List HistoryRecord :=
  let analyzer_type := data.analyzer_type.getD "lexicon"
  match data.url with
  | none =>
      (⟨200, .errorBody ("Analysis error: " ++ noneUrlError)⟩, store)
  | some u =>
      let article_text := (extract_text_from_url u env.extractEnv).1
      match run_java_analyzer env.analyzerEnv analyzer_type article_text data.model with
      | (.error e, _) => (⟨200, .errorBody ("Analysis error: " ++ e)⟩, store)
      | (.ok result, _) =>
          let record : HistoryRecord :=
            ⟨user, u, analyzer_type,
             (if analyzer_type == "transformer" then data.model else none),
             result.left, result.right, result.message, result.explanation, env.now⟩
          (⟨200, .analyzeOk result ("Successfully analyzed article from " ++ u)⟩,
           store ++ [record])

/-- The register handler (lines 164-184). Users are an association list of
username to stored password hash; sess is the session before the call,
returned updated. Python truthiness of the two fields: None or the
empty string trigger the 400 branch. On success the user is inserted
and login_user establishes the session for the new username. -/
def register (users : List (String × String)) (sess : Option String)
    (username password : Option String) (hash : String → String) :
    Response × List (String × String) × Option String :=
  match username, password with
  | some u, some p =>
      if u == "" || p == "" then
        (⟨400, .errorBody "Missing username or password"⟩, users, sess)
      else if (users.find? (fun kv => kv.1 == u)).isSome then
        (⟨409, .errorBody "Username already exists"⟩, users, sess)
      else
        (⟨201, .msgBody "User registered successfully"⟩, users ++ [(u, hash p)], some u)
  | _, _ => (⟨400, .errorBody "Missing username or password"⟩, users, sess)

/-- The check-auth handler (lines 186-191): the session carries the logged
in username or nothing. -/
def check_auth (sess : Option String) : Response :=
  match sess with
  | some u => ⟨200, .authBody true (some u)⟩
  | none => ⟨401, .authBody false none⟩

/-- The login handler (lines 193-212). check models
bcrypt.check_password_hash(storedHash, password). The hardcoded branch
for olly/demo runs before any store lookup. When username or password
is None the store lookup or bcrypt raises, the except swallows it, and
the 401 branch answers. The returned Option String is the session as
login_user leaves it: the user logged in by this call, none otherwise. -/
def login (users : List (String × String)) (check : String → String → Bool)
    (username password : Option String) : Response × Option String :=
  if username == some "olly" && password == some "demo" then
    (⟨200, .msgBody "Login successful"⟩, some "olly")
  else
    match username, password with
    | some u, some p =>
        match users.find? (fun kv => kv.1 == u) with
        | some kv =>
            if check kv.2 p then (⟨200, .msgBody "Login successful"⟩, some u)
            else (⟨401, .errorBody "Invalid username or password"⟩, none)
        | none => (⟨401, .errorBody "Invalid username or password"⟩, none)
    | _, _ => (⟨401, .errorBody "Invalid username or password"⟩, none)

/-- The in-memory fallback collection (lines 61-73), used when MongoDB is
unreachable: a dict from key to stored password value. -/
structure MemoryCollection where
  db : List (String × String)

/-- MemoryCollection.find (lines 69-70): builds a document for every entry
of the dict and ignores the query argument entirely, unlike the MongoDB
find the history handler relies on for user scoping. -/
def MemoryCollection.find (c : MemoryCollection) (query : List (String × Json)) :
    List (List (String × Json)) :=
  c.db.map (fun kv => [("_id", Json.str kv.1), ("password", Json.str kv.2)])

/-- A healthy analyzer host whose program prints an object with only a left
field of 70, the concrete example of the spec. -/
def left70Env : AnalyzerEnv :=
  ⟨true, none, false, fun _ _ => ⟨0, "", some (.obj [("left", Json.num 70)])⟩⟩

/-- A healthy analyzer host whose program prints an object whose left field
is JSON null, a value float() rejects. -/
def nullLeftEnv : AnalyzerEnv :=
  ⟨true, none, false, fun _ _ => ⟨0, "", some (.obj [("left", Json.null)])⟩⟩

/-- A healthy analyzer host whose program prints nothing parseable. -/
def badJsonEnv : AnalyzerEnv :=
  ⟨true, none, false, fun _ _ => ⟨0, "", none⟩⟩

/-- An extraction environment in which both stages fail. -/
def deadExtractEnv : ExtractEnv := ⟨none, .exn⟩

/-- A newspaper3k body of 5001 characters, longer than the 5000-character
maximum the specification promises. -/
def longArticle : String := String.mk (List.replicate 5001 'a')

/-- Analyze environment for the missing-url counterexample. -/
def missingUrlEnv : AnalyzeEnv := ⟨deadExtractEnv, badJsonEnv, 0⟩

/-- Analyze environment for the failure-path witnesses. -/
def failWitnessEnv : AnalyzeEnv := ⟨⟨some "tiny", .exn⟩, badJsonEnv, 7⟩

/-- A newspaper3k body of 150 characters, above the success threshold. -/
def mediumArticle : String := String.mk (List.replicate 150 'b')

/-- C1 counterexample: the analyzer output obj with left = null parses as a
JSON object, yet run_java_analyzer returns no record: float(None)
raises a TypeError, so the call fails with the wrapped message instead
of normalizing, refuting the claim that every JSON-object output is
normalized to a record. -/
theorem analyzer_null_left_returns_no_record :
    run_java_analyzer nullLeftEnv "lexicon" "some text" none =
      (.error "Error running analyzer: float() argument must be a string or a real number",
       true) := rfl

/-- C1 (amended): for every analyzer output that parses as a JSON object
whose left and right fields, after defaulting missing ones to 50.0, are
accepted by float(), run_java_analyzer returns a record in which missing
left and right are 50.0, both fields pass through float, a missing
message becomes "Analysis complete", and a missing explanation becomes
the possibly defaulted message. -/
theorem run_java_analyzer_normalizes (env : AnalyzerEnv) (kind text cls : String)
    (model : Option String) (kvs : List (String × Json)) (l r : ℚ)
    (hjar : env.jarExists = true)
    (hcls : lookupAnalyzerKind kind = some cls)
    (hexit : (env.run (buildCmd env kind cls model) text).returncode = 0)
    (hout : (env.run (buildCmd env kind cls model) text).stdout = some (Json.obj kvs))
    (hl : pyFloat ((lookup kvs "left").getD (Json.num 50)) = some l)
    (hr : pyFloat ((lookup kvs "right").getD (Json.num 50)) = some r) :
    run_java_analyzer env kind text model =
      (.ok ⟨l, r, (lookup kvs "message").getD (Json.str "Analysis complete"),
        (lookup kvs "explanation").getD
          ((lookup kvs "message").getD (Json.str "Analysis complete"))⟩,
       true) := by
  simp [run_java_analyzer, hjar, hcls, hexit, hout, normalizeResult, hl, hr]

/-- C1 witness, the concrete example of the specification: output obj with
left = 70 alone normalizes to left 70.0, right 50.0, message and
explanation "Analysis complete". -/
theorem run_java_analyzer_normalizes_witness :
    run_java_analyzer left70Env "lexicon" "article text" none =
      (.ok ⟨70, 50, Json.str "Analysis complete", Json.str "Analysis complete"⟩, true) :=
  run_java_analyzer_normalizes left70Env "lexicon" "article text"
    "com.sentiment.LexiconAnalyzer" none [("left", Json.num 70)] 70 50
    rfl rfl rfl rfl rfl rfl

/-- C6: with the JAR present, an analyzer kind outside lexicon, transformer
and llm makes run_java_analyzer fail with the unknown-analyzer-type
ValueError message, and the recorded launch flag is false: no
subprocess runs. -/
theorem unknown_kind_no_subprocess (env : AnalyzerEnv) (kind text : String)
    (model : Option String) (hjar : env.jarExists = true)
    (h1 : kind ≠ "lexicon") (h2 : kind ≠ "transformer") (h3 : kind ≠ "llm") :
    run_java_analyzer env kind text model =
      (.error ("Unknown analyzer type: " ++ kind), false) := by
  have e1 : ("llm" == kind) = false := beq_eq_false_iff_ne.mpr (Ne.symm h3)
  have e2 : ("transformer" == kind) = false := beq_eq_false_iff_ne.mpr (Ne.symm h2)
  have e3 : ("lexicon" == kind) = false := beq_eq_false_iff_ne.mpr (Ne.symm h1)
  have hcls : lookupAnalyzerKind kind = none := by
    simp [lookupAnalyzerKind, analyzer_classes, List.find?, e1, e2, e3]
  simp [run_java_analyzer, hjar, hcls]

/-- C6 witness: kind vader is rejected without a launch. -/
theorem unknown_kind_no_subprocess_witness :
    run_java_analyzer badJsonEnv "vader" "text" none =
      (.error ("Unknown analyzer type: " ++ "vader"), false) :=
  unknown_kind_no_subprocess badJsonEnv "vader" "text" none rfl
    (by decide) (by decide) (by decide)

/-- C5: a URL that, lowercased, ends in one of the download extensions
makes extract_text_from_url return the fixed download-link message with
the network flag false: no request of any kind is attempted. -/
theorem download_url_no_network (url : String) (env : ExtractEnv)
    (h : ∃ ext ∈ download_extensions, pyEndsWith (pyLower url) ext = true) :
    extract_text_from_url url env = (downloadLinkMsg, false) := by
  have hb : download_extensions.any (fun ext => pyEndsWith (pyLower url) ext) = true := by
    rcases h with ⟨ext, hmem, hend⟩
    exact List.any_eq_true.mpr ⟨ext, hmem, hend⟩
  simp [extract_text_from_url, hb]

/-- C5 witness: an uppercase .PDF link is rejected offline even in a dead
network environment. -/
theorem download_url_no_network_witness :
    extract_text_from_url "https://example.com/report.PDF" deadExtractEnv =
      (downloadLinkMsg, false) :=
  download_url_no_network "https://example.com/report.PDF" deadExtractEnv
    ⟨".pdf", by decide, by decide⟩

/-- C3 counterexample: a 5001-character newspaper3k body is returned whole,
so the extracted string exceeds the 5000-character maximum the claim
promises; no truncation happens anywhere in extract_text_from_url. -/
theorem extract_exceeds_5000 :
    5000 < (extract_text_from_url "http://example.com/article"
      ⟨some longArticle, FallbackResult.exn⟩).1.length := by
  have hd : download_extensions.any
      (fun ext => pyEndsWith (pyLower "http://example.com/article") ext) = false := by decide
  have hlen : longArticle.length = 5001 := by
    have hdata : longArticle.length = (List.replicate 5001 'a').length := rfl
    rw [hdata, List.length_replicate]
  have hout : extract_text_from_url "http://example.com/article"
      ⟨some longArticle, FallbackResult.exn⟩ = (longArticle, true) := by
    simp [extract_text_from_url, hd, hlen]
  rw [hout, hlen]
  norm_num

/-- C3 (amended): extract_text_from_url applies no truncation at all: for a
URL that is not a download link, whenever the primary extraction yields
a body longer than 100 characters the extractor returns that body
unchanged, whatever its length, so the result is non-empty but is not
bounded by 5000 characters. -/
theorem extract_returns_full_text (url t : String) (fb : FallbackResult)
    (hd : download_extensions.any (fun ext => pyEndsWith (pyLower url) ext) = false)
    (hlen : 100 < t.length) :
    extract_text_from_url url ⟨some t, fb⟩ = (t, true) := by
  simp [extract_text_from_url, hd, hlen]

/-- C3 witness: a 150-character body comes back exactly as extracted. -/
theorem extract_returns_full_text_witness :
    extract_text_from_url "http://news.example.org/story"
      ⟨some mediumArticle, FallbackResult.exn⟩ = (mediumArticle, true) :=
  extract_returns_full_text "http://news.example.org/story" mediumArticle
    FallbackResult.exn (by decide) (by decide)

/-- C2: a failure in the extraction stage (the AttributeError that a missing
url raises inside extract_text_from_url) or in the invocation stage
(run_java_analyzer returning an error) makes analyze answer the error
body built from that failure's message, and leaves the history store
untouched: nothing is persisted for the request. -/
theorem analyze_failure_no_persist (env : AnalyzeEnv) (store : List HistoryRecord)
    (user : String) (data : AnalyzeRequest)
    (h : data.url = none ∨ ∃ u e b, data.url = some u ∧
      run_java_analyzer env.analyzerEnv (data.analyzer_type.getD "lexicon")
        (extract_text_from_url u env.extractEnv).1 data.model = (.error e, b)) :
    (analyze env store user data).2 = store ∧
    ∃ m, (analyze env store user data).1 = ⟨200, .errorBody ("Analysis error: " ++ m)⟩ ∧
      (data.url = none → m = noneUrlError) ∧
      (∀ u e b, data.url = some u →
        run_java_analyzer env.analyzerEnv (data.analyzer_type.getD "lexicon")
          (extract_text_from_url u env.extractEnv).1 data.model = (.error e, b) →
        m = e) := by
  rcases h with hnone | ⟨u, e, b, hu, herr⟩
  · refine ⟨by simp [analyze, hnone], noneUrlError, by simp [analyze, hnone], ?_, ?_⟩
    · intro _; rfl
    · intro u e b hu _
      rw [hnone] at hu
      cases hu
  · refine ⟨by simp [analyze, hu, herr], e, by simp [analyze, hu, herr], ?_, ?_⟩
    · intro hn
      rw [hn] at hu
      cases hu
    · intro u' e' b' hu' herr'
      rw [hu] at hu'
      have huu : u = u' := Option.some.inj hu'
      subst huu
      rw [herr] at herr'
      have h1 : (Except.error e : Except String AnalysisResult) = Except.error e' :=
        congrArg Prod.fst herr'
      exact Except.error.inj h1

/-- C2 witness: the missing-url request fails and persists nothing. -/
theorem analyze_failure_no_persist_witness :
    (analyze missingUrlEnv [] "olly" ⟨none, none, none⟩).2 = [] ∧
    ∃ m, (analyze missingUrlEnv [] "olly" ⟨none, none, none⟩).1 =
        ⟨200, RespBody.errorBody ("Analysis error: " ++ m)⟩ ∧
      ((⟨none, none, none⟩ : AnalyzeRequest).url = none → m = noneUrlError) ∧
      (∀ u e b, (⟨none, none, none⟩ : AnalyzeRequest).url = some u →
        run_java_analyzer missingUrlEnv.analyzerEnv
          ((⟨none, none, none⟩ : AnalyzeRequest).analyzer_type.getD "lexicon")
          (extract_text_from_url u missingUrlEnv.extractEnv).1
          (⟨none, none, none⟩ : AnalyzeRequest).model = (.error e, b) →
        m = e) :=
  analyze_failure_no_persist missingUrlEnv [] "olly" ⟨none, none, none⟩ (Or.inl rfl)

/-- C9: when the extraction or the invocation stage fails, the analyze
handler answers with HTTP status 200, never an error status: the
failure shows only in the error body. -/
theorem analyze_failure_status_200 (env : AnalyzeEnv) (store : List HistoryRecord)
    (user : String) (data : AnalyzeRequest)
    (h : data.url = none ∨ ∃ u e b, data.url = some u ∧
      run_java_analyzer env.analyzerEnv (data.analyzer_type.getD "lexicon")
        (extract_text_from_url u env.extractEnv).1 data.model = (.error e, b)) :
    ((analyze env store user data).1).status = 200 ∧
    ∃ m, ((analyze env store user data).1).body = RespBody.errorBody m := by
  rcases h with hnone | ⟨u, e, b, hu, herr⟩
  · exact ⟨by simp [analyze, hnone],
      "Analysis error: " ++ noneUrlError, by simp [analyze, hnone]⟩
  · exact ⟨by simp [analyze, hu, herr],
      "Analysis error: " ++ e, by simp [analyze, hu, herr]⟩

/-- C9 witness: an analyzer emitting unparseable output yields a 200
response whose body is the error body. -/
theorem analyze_failure_status_200_witness :
    ((analyze failWitnessEnv [] "olly"
        ⟨some "http://example.com/article", some "llm", none⟩).1).status = 200 ∧
    ∃ m, ((analyze failWitnessEnv [] "olly"
        ⟨some "http://example.com/article", some "llm", none⟩).1).body =
      RespBody.errorBody m :=
  analyze_failure_status_200 failWitnessEnv [] "olly"
    ⟨some "http://example.com/article", some "llm", none⟩
    (Or.inr ⟨"http://example.com/article",
      "Error running analyzer: Analyzer returned invalid JSON", true, rfl, rfl⟩)

/-- C4 counterexample: an authenticated analyze request without a url field
is not answered with HTTP 400: no validation runs; the None url reaches
the Extractor, whose AttributeError is converted into an error body
served with status 200. -/
theorem analyze_missing_url_not_400 :
    analyze missingUrlEnv [] "olly" ⟨none, some "lexicon", none⟩ =
      (⟨200, RespBody.errorBody ("Analysis error: " ++ noneUrlError)⟩, []) := rfl

/-- C4 (amended): the handler performs no presence validation of url. A
request lacking url is passed on; extract_text_from_url raises
AttributeError on None.lower(), the except branch catches it, and the
handler answers status 200 with the error body, not 400. -/
theorem analyze_missing_url_soft_error (env : AnalyzeEnv) (store : List HistoryRecord)
    (user : String) (data : AnalyzeRequest) (h : data.url = none) :
    analyze env store user data =
      (⟨200, RespBody.errorBody ("Analysis error: " ++ noneUrlError)⟩, store) := by
  simp [analyze, h]

/-- C4 witness: the amended behaviour at a concrete url-less request. -/
theorem analyze_missing_url_soft_error_witness :
    analyze failWitnessEnv [] "bob" ⟨none, some "transformer", some "distilbert"⟩ =
      (⟨200, RespBody.errorBody ("Analysis error: " ++ noneUrlError)⟩, []) :=
  analyze_missing_url_soft_error failWitnessEnv [] "bob"
    ⟨none, some "transformer", some "distilbert"⟩ rfl

/-- C7: the in-memory collection's find ignores its query argument, so the
history handler's user scoping is lost in memory mode: querying for
user olly returns the same two documents as querying for user bob,
including the document that belongs to the other user. -/
theorem memory_find_ignores_user_query :
    MemoryCollection.find ⟨[("olly", "h1"), ("bob", "h2")]⟩ [("user", Json.str "olly")] =
      MemoryCollection.find ⟨[("olly", "h1"), ("bob", "h2")]⟩ [("user", Json.str "bob")] ∧
    MemoryCollection.find ⟨[("olly", "h1"), ("bob", "h2")]⟩ [("user", Json.str "olly")] =
      [[("_id", Json.str "olly"), ("password", Json.str "h1")],
       [("_id", Json.str "bob"), ("password", Json.str "h2")]] :=
  ⟨rfl, rfl⟩

/-- C8: the hardcoded credential pair olly and demo logs in with 200 and a
session for olly whatever the users store and the bcrypt verifier hold:
the branch runs before any store lookup, so no stored account or hash
can change the outcome. -/
theorem hardcoded_login_ignores_store (users : List (String × String))
    (check : String → String → Bool) :
    login users check (some "olly") (some "demo") =
      (⟨200, RespBody.msgBody "Login successful"⟩, some "olly") := rfl

/-- C10: every register call that answers 201 has logged the new user in:
the resulting session names the new username, and check_auth on that
session answers 200 with that username, with no intervening login. -/
theorem register_auto_login (users : List (String × String)) (sess : Option String)
    (u p : String) (hash : String → String)
    (h : ((register users sess (some u) (some p) hash).1).status = 201) :
    (register users sess (some u) (some p) hash).2.2 = some u ∧
    check_auth ((register users sess (some u) (some p) hash).2.2) =
      ⟨200, RespBody.authBody true (some u)⟩ := by
  by_cases h1 : (u == "" || p == "") = true
  · simp [register, h1] at h
  · by_cases h2 : ((users.find? (fun kv => kv.1 == u)).isSome) = true
    · simp [register, h1, h2] at h
    · exact ⟨by simp [register, h1, h2], by simp [register, h1, h2, check_auth]⟩

/-- C10 witness: registering alice on an empty store yields 201 and an
immediately authenticated session for alice. -/
theorem register_auto_login_witness :
    (register [] none (some "alice") (some "pw") (fun s => s)).2.2 = some "alice" ∧
    check_auth ((register [] none (some "alice") (some "pw") (fun s => s)).2.2) =
      ⟨200, RespBody.authBody true (some "alice")⟩ :=
  register_auto_login [] none "alice" "pw" (fun s => s) rfl
